import Mathlib

/-!
Verification development for the BigDataStructure cost-estimation core.

The definitions below are a shallow embedding of the Python sources:
  * `app/core/models.py`       — schema tree data model (`Field`, `Collection`)
  * `app/core/size_calc.py`    — size model (`value_size`, `key_count`, `doc_size`)
  * `app/core/schema_tools.py` — field-type resolver
  * `app/cost_model/formulas.py`   — the analytical cost formula
  * `app/cost_model/operations.py` — filter / join / aggregate operators

Conventions: Python floats are modelled as exact rationals (`ℚ`); counts are
naturals; Python dictionaries become functions into `Option`; code paths that
raise (`ZeroDivisionError`, `ValueError`/field resolution, `IndexError`)
are modelled as `Option`-valued computations returning `none`.
-/

namespace BigData

/-- Schema tree node, embedding `Field` of `app/core/models.py`:
a name, a kind string (`field_type`), a list of subfields and an
average-arity hint (meaningful for arrays). -/
inductive Field : Type where
  | mk (name : String) (field_type : String) (subfields : List Field) (avg_items : ℚ)

def Field.name : Field → String
  | .mk n _ _ _ => n

def Field.field_type : Field → String
  | .mk _ t _ _ => t

def Field.subfields : Field → List Field
  | .mk _ _ s _ => s

def Field.avg_items : Field → ℚ
  | .mk _ _ _ a => a

/-- `Collection` of `app/core/models.py`: name, root fields, document count
statistic, and the memoized per-document size. -/
structure Collection : Type where
  name : String
  fields : List Field
  doc_count : ℕ
  doc_size : ℚ

/-- `TYPE_SIZES` of `app/core/size_calc.py`, as a partial map from kind
strings to byte sizes (membership in the Python dict becomes `isSome`). -/
def TYPE_SIZES (t : String) : Option ℕ :=
  if t = "integer" then some 8
  else if t = "number" then some 8
  else if t = "string" then some 80
  else if t = "longstring" then some 200
  else if t = "date" then some 20
  else none

/-- `OVERHEAD` of `app/core/size_calc.py`: 12-byte per-key overhead. -/
def OVERHEAD : ℕ := 12

theorem TYPE_SIZES_integer : TYPE_SIZES "integer" = some 8 := rfl

theorem TYPE_SIZES_number : TYPE_SIZES "number" = some 8 := rfl

theorem TYPE_SIZES_string : TYPE_SIZES "string" = some 80 := rfl

theorem TYPE_SIZES_longstring : TYPE_SIZES "longstring" = some 200 := rfl

theorem TYPE_SIZES_date : TYPE_SIZES "date" = some 20 := rfl

theorem TYPE_SIZES_object : TYPE_SIZES "object" = none := rfl

theorem TYPE_SIZES_array : TYPE_SIZES "array" = none := rfl

mutual

/-- `value_size` of `app/core/size_calc.py`: value bytes of one field
(primitive: table lookup; object: sum over subfields; array: `avg_items`
times the item value, 0 with no item; unknown kind: the string size). -/
def value_size : Field → ℚ
  | .mk _ t subs avg =>
    match TYPE_SIZES t with
    | some n => (n : ℚ)
    | none =>
      if t = "object" then value_size_list subs
      else if t = "array" then
        match subs with
        | [] => 0
        | item :: _ => avg * value_size item
      else (80 : ℚ)

/-- Sum of `value_size` over a list of fields (the Python generator sums). -/
def value_size_list : List Field → ℚ
  | [] => 0
  | f :: fs => value_size f + value_size_list fs

end

mutual

/-- `key_count` of `app/core/size_calc.py`: number of JSON keys charged
overhead (primitive: 1; object: 1 plus subfield keys; array: 1 plus the
item's keys counted once; unknown kind: 1). -/
def key_count : Field → ℚ
  | .mk _ t subs _ =>
    match TYPE_SIZES t with
    | some _ => 1
    | none =>
      if t = "object" then 1 + key_count_list subs
      else if t = "array" then
        match subs with
        | [] => 1
        | item :: _ => 1 + key_count item
      else 1

/-- Sum of `key_count` over a list of fields. -/
def key_count_list : List Field → ℚ
  | [] => 0
  | f :: fs => key_count f + key_count_list fs

end

/-- `doc_size` of `app/core/size_calc.py`: total value bytes of the root
fields plus the key count times the 12-byte overhead. -/
def doc_size (coll : Collection) : ℚ :=
  value_size_list coll.fields + key_count_list coll.fields * (OVERHEAD : ℚ)

/-- `collection_size` of `app/core/size_calc.py`. -/
def collection_size (coll : Collection) : ℚ :=
  doc_size coll * (coll.doc_count : ℚ)

theorem value_size_list_eq_sum (fs : List Field) :
    value_size_list fs = (fs.map value_size).sum := by
  induction fs with
  | nil => rfl
  | cons f fs ih => simp [value_size_list, ih]

theorem key_count_list_eq_sum (fs : List Field) :
    key_count_list fs = (fs.map key_count).sum := by
  induction fs with
  | nil => rfl
  | cons f fs ih => simp [key_count_list, ih]

/-! ### Field-type resolver (`app/core/schema_tools.py`) -/

mutual

/-- `_find_field` of `app/core/schema_tools.py`: depth-first, pre-order
search by name through nested objects and arrays; first match wins. -/
def find_field : List Field → String → Option Field
  | [], _ => none
  | f :: fs, target =>
    match find_in_field f target with
    | some g => some g
    | none => find_field fs target

/-- One loop iteration of `_find_field`: match the field's own name, then
recurse into object children, then into array children (when nonempty). -/
def find_in_field : Field → String → Option Field
  | Field.mk n t subs a, target =>
    if n = target then some (Field.mk n t subs a)
    else
      match (if t = "object" then find_field subs target else none) with
      | some g => some g
      | none =>
        if t = "array" then
          (if subs.isEmpty then none else find_field subs target)
        else none

end

mutual

/-- `_collect_primitive_types` of `app/core/schema_tools.py`: all primitive
type tags reachable under a field; `none` embeds the `ValueError` raised on
an unsupported kind (including an array with no item definition). -/
def collect_primitive_types : Field → Option (List String)
  | .mk _ t subs _ =>
    if (TYPE_SIZES t).isSome then some [t]
    else if t = "object" then collect_primitive_types_list subs
    else if t = "array" then
      match subs with
      | item :: _ => collect_primitive_types item
      | [] => none
    else none

/-- Concatenation of `collect_primitive_types` over a subfield list,
propagating failure. -/
def collect_primitive_types_list : List Field → Option (List String)
  | [] => some []
  | f :: fs => do
    let a ← collect_primitive_types f
    let r ← collect_primitive_types_list fs
    pure (a ++ r)

end

/-- `resolve_field_types` of `app/core/schema_tools.py`: resolve each query
field name to its primitive types and concatenate; `none` embeds the
`ValueError` raised when a name is absent from the schema tree. -/
def resolve_field_types (coll : Collection) : List String → Option (List String)
  | [] => some []
  | fname :: rest => do
    let fld ← find_field coll.fields fname
    let ts ← collect_primitive_types fld
    let r ← resolve_field_types coll rest
    pure (ts ++ r)

/-! ### Domain constants (`app/config.py`) -/

def BANDWIDTH_Bps : ℚ := 100000000
def RAM_Bps : ℚ := 25000000000
def CO2_NETWORK_RATE : ℚ := 11 / 1000
def CO2_RAM_RATE : ℚ := 28 / 1000
def PRICE_RATE : ℚ := 11 / 1000
def INDEX_SIZE : ℚ := 1000000

/-! ### Cost formula (`app/cost_model/formulas.py`) -/

/-- `CostOutput` of `app/cost_model/formulas.py`. -/
structure CostOutput : Type where
  result_docs : ℚ
  result_size_bytes : ℚ
  size_query : ℚ
  size_msg : ℚ
  vol_network : ℚ
  ram_volume : ℚ
  ram_volume_total : ℚ
  time_network : ℚ
  time_ram : ℚ
  time_total : ℚ
  co2 : ℚ
  price : ℚ
deriving Repr, DecidableEq

/-- Sum of `TYPE_SIZES[t]` over a type list; `none` embeds the `KeyError`
on a tag outside the table. -/
def sum_type_sizes : List String → Option ℕ
  | [] => some 0
  | t :: ts => do
    let n ← TYPE_SIZES t
    let r ← sum_type_sizes ts
    pure (n + r)

/-- `size_of_fields` of `app/cost_model/formulas.py`:
`Σ (12 + TYPE_SIZES[t])` over a type list. -/
def size_of_fields : List String → Option ℕ
  | [] => some 0
  | t :: ts => do
    let n ← TYPE_SIZES t
    let r ← size_of_fields ts
    pure (OVERHEAD + n + r)

/-- `compute_query_size` of `app/cost_model/formulas.py`: value sizes of
filters plus value sizes of projections plus one 12-byte overhead per
filter and projection entry. -/
def compute_query_size (filter_types projection_types : List String) : Option ℕ := do
  let vf ← sum_type_sizes filter_types
  let vp ← sum_type_sizes projection_types
  pure (vf + vp + (filter_types.length + projection_types.length) * OVERHEAD)

/-- Local working set of one working shard (`ram_local` of
`operator_cost_excel`): resident index plus scanned data. -/
def ram_local_calc (local_docs selectivity ds : ℚ) (indexes_per_shard : ℕ) : ℚ :=
  (indexes_per_shard : ℚ) * INDEX_SIZE + local_docs * selectivity * ds

/-- Idle-shard RAM cost of `operator_cost_excel` (lines 124-135): zero under
smart routing (`s == 1` with more than one server in total), otherwise the
idle shards keep their index resident.  The count subtraction is on `ℕ`,
carrying Python's `max(servers_total - servers_working, 0)` clamp. -/
def inactive_ram_cost_calc (s servers_working servers_total indexes_per_shard : ℕ) : ℚ :=
  if s = 1 ∧ 1 < servers_total then 0
  else ((servers_total - servers_working : ℕ) : ℚ) * ((indexes_per_shard : ℚ) * INDEX_SIZE)

/-- Decimal byte-to-gigabyte conversion. -/
def bytes_to_gb (x : ℚ) : ℚ := x / 1000000000

/-- `operator_cost_excel` of `app/cost_model/formulas.py`: the single
analytical cost function; `none` embeds a `KeyError` on an unknown type tag. -/
def operator_cost_excel (s : ℕ) (result_docs : ℚ)
    (filter_types projection_types : List String)
    (local_docs selectivity ds : ℚ)
    (servers_working servers_total indexes_per_shard : ℕ) : Option CostOutput := do
  let size_query ← compute_query_size filter_types projection_types
  let size_msg ← size_of_fields projection_types
  let vol_network : ℚ := (s : ℚ) * (size_query : ℚ) + result_docs * (size_msg : ℚ)
  let ram_local := ram_local_calc local_docs selectivity ds indexes_per_shard
  let active_ram_cost := (servers_working : ℚ) * ram_local
  let inactive := inactive_ram_cost_calc s servers_working servers_total indexes_per_shard
  let ram_volume_total := active_ram_cost + inactive
  let time_network := vol_network / BANDWIDTH_Bps
  let time_ram := ram_local / RAM_Bps
  let ram_gb := bytes_to_gb ram_volume_total
  let net_gb := bytes_to_gb vol_network
  pure {
    result_docs := result_docs
    result_size_bytes := result_docs * (size_msg : ℚ)
    size_query := (size_query : ℚ)
    size_msg := (size_msg : ℚ)
    vol_network := vol_network
    ram_volume := ram_local
    ram_volume_total := ram_volume_total
    time_network := time_network
    time_ram := time_ram
    time_total := time_network + time_ram
    co2 := net_gb * CO2_NETWORK_RATE + ram_gb * CO2_RAM_RATE
    price := net_gb * PRICE_RATE }

/-! ### Operator layer (`app/cost_model/operations.py`)

Python dictionaries of statistics become functions `String → Option ℤ`;
`Optional` parameters become `Option`; the truthiness tests of the source
(`selectivity or default_selectivity(...)`, `if not pk_fields`, `if ndist`)
are embedded as written. -/

/-- `default_selectivity` of `app/cost_model/operations.py`:
`1 / distinct(filter_key)` when the statistic is present and positive,
else the fallback constant `0.1`. -/
def default_selectivity (filter_key : String) (distinct_values : String → Option ℤ) : ℚ :=
  match distinct_values filter_key with
  | some n => if 0 < n then 1 / (n : ℚ) else 1 / 10
  | none => 1 / 10

/-- `detect_primary_key_result` of `app/cost_model/operations.py`: `False`
on a missing or empty primary-key list (`if not pk_fields`), else the
set-inclusion test `set(pk_fields) <= set(filter_keys)`. -/
def detect_primary_key_result (filter_keys : List String)
    (pk_fields : Option (List String)) : Bool :=
  match pk_fields with
  | none => false
  | some pk => if pk.isEmpty then false else pk.all (fun f => filter_keys.contains f)

/-- Result-cardinality block shared verbatim by `filter_without_sharding`
(lines 50-55) and `filter_with_sharding` (lines 113-118): returns
`(result_docs, selectivity)`.  `none` embeds the `ZeroDivisionError` of
`1.0 / coll.doc_count` on an empty collection in the primary-key branch and
the `IndexError` of `filter_keys[0]` on an empty filter list; the Python
expression `selectivity or default_selectivity(...)` discards a supplied
override equal to `0.0` (falsy) and short-circuits past `filter_keys[0]`
when the override is nonzero. -/
def filter_cardinality (dc : ℕ) (filter_keys : List String)
    (distinct_values : String → Option ℤ) (selectivity : Option ℚ)
    (pk_fields : Option (List String)) : Option (ℚ × ℚ) :=
  if detect_primary_key_result filter_keys pk_fields then
    if dc = 0 then none
    else some (1, 1 / (dc : ℚ))
  else
    let fb : Option (ℚ × ℚ) :=
      match filter_keys with
      | [] => none
      | k :: _ =>
        let sel := default_selectivity k distinct_values
        some ((dc : ℚ) * sel, sel)
    match selectivity with
    | some sel => if sel = 0 then fb else some ((dc : ℚ) * sel, sel)
    | none => fb

/-- `filter_without_sharding` of `app/cost_model/operations.py`: contacts
all `servers`, with `local_docs = doc_count / servers`. -/
def filter_without_sharding (coll : Collection)
    (filter_keys select_fields : List String)
    (distinct_values : String → Option ℤ) (servers : ℕ)
    (selectivity : Option ℚ) (pk_fields : Option (List String))
    (servers_working indexes_per_shard : ℕ) : Option CostOutput := do
  let rs ← filter_cardinality coll.doc_count filter_keys distinct_values
    selectivity pk_fields
  let filter_types ← resolve_field_types coll filter_keys
  let projection_types ← resolve_field_types coll select_fields
  operator_cost_excel servers rs.1 filter_types projection_types
    ((coll.doc_count : ℚ) / (servers : ℚ)) rs.2 coll.doc_size
    servers_working servers indexes_per_shard

/-- `filter_with_sharding` of `app/cost_model/operations.py`: one shard
contacted when the sharding key is among the filter keys, else all; the
contacted-shard count is also passed as `servers_working` (the function's
own `servers_working` parameter is overridden in the source). -/
def filter_with_sharding (coll : Collection)
    (filter_keys select_fields : List String) (sharding_key : String)
    (distinct_values : String → Option ℤ) (servers : ℕ)
    (selectivity : Option ℚ) (pk_fields : Option (List String))
    (indexes_per_shard : ℕ) : Option CostOutput := do
  let S := if filter_keys.contains sharding_key then 1 else servers
  let rs ← filter_cardinality coll.doc_count filter_keys distinct_values
    selectivity pk_fields
  let filter_types ← resolve_field_types coll filter_keys
  let projection_types ← resolve_field_types coll select_fields
  operator_cost_excel S rs.1 filter_types projection_types
    ((coll.doc_count : ℚ) / (servers : ℚ)) rs.2 coll.doc_size
    S servers indexes_per_shard

/-- Result dictionary of the two nested-loop join operators. -/
structure JoinOutput : Type where
  result_docs : ℚ
  outer : CostOutput
  inner_per_iteration : CostOutput
  vol_network : ℚ
  ram_volume : ℚ
  time_total : ℚ
  co2 : ℚ
  price : ℚ
deriving Repr, DecidableEq

/-- Outer selectivity of the join operators: `default_selectivity` on the
first outer filter key, or `1.0` with no outer filter (lines 176-179 and
257-260 of `app/cost_model/operations.py`). -/
def nl_outer_sel (outer_filter_keys : List String)
    (distinct_values : String → Option ℤ) : ℚ :=
  match outer_filter_keys with
  | [] => 1
  | k :: _ => default_selectivity k distinct_values

/-- Inner selectivity of `nested_loop_without_sharding` (line 182):
`1.0 / ndist if ndist else 0.1`, on the truthiness of the optional
statistic (missing or zero both fall back). -/
def nl_inner_sel (ndist : Option ℤ) : ℚ :=
  match ndist with
  | some n => if n = 0 then 1 / 10 else 1 / (n : ℚ)
  | none => 1 / 10

/-- Join output cardinality of `nested_loop_without_sharding`
(lines 185-189): `outer * (right / ndist)` when the statistic is truthy,
else `0.1 * outer * right`. -/
def nl_join_result_docs (outer_result_docs : ℚ) (right_doc_count : ℕ)
    (ndist : Option ℤ) : ℚ :=
  match ndist with
  | some n =>
    if n = 0 then 1 / 10 * outer_result_docs * (right_doc_count : ℚ)
    else outer_result_docs * ((right_doc_count : ℚ) / (n : ℚ))
  | none => 1 / 10 * outer_result_docs * (right_doc_count : ℚ)

/-- `nested_loop_without_sharding` of `app/cost_model/operations.py`:
outer filter cost plus an inner per-probe cost scaled by the JOIN OUTPUT
cardinality; the distinct-count fallback (`if ndist:`) treats both a
missing and a zero statistic as unknown (factor `0.1 * right.doc_count`). -/
def nested_loop_without_sharding (left right : Collection) (join_key : String)
    (distinct_values : String → Option ℤ)
    (outer_filter_keys outer_select_fields inner_select_fields : List String)
    (servers : ℕ) : Option JoinOutput := do
  let outer_sel := nl_outer_sel outer_filter_keys distinct_values
  let ndist := distinct_values join_key
  let inner_sel := nl_inner_sel ndist
  let outer_result_docs := (left.doc_count : ℚ) * outer_sel
  let join_result_docs := nl_join_result_docs outer_result_docs right.doc_count ndist
  let outer_ft ← resolve_field_types left outer_filter_keys
  let outer_pt ← resolve_field_types left outer_select_fields
  let outer_cost ← operator_cost_excel servers outer_result_docs outer_ft outer_pt
    ((left.doc_count : ℚ) / (servers : ℚ)) outer_sel left.doc_size servers servers 1
  let inner_ft ← resolve_field_types right [join_key]
  let inner_pt ← resolve_field_types right inner_select_fields
  let inner_cost ← operator_cost_excel servers 1 inner_ft inner_pt
    ((right.doc_count : ℚ) / (servers : ℚ)) inner_sel right.doc_size servers servers 1
  pure {
    result_docs := join_result_docs
    outer := outer_cost
    inner_per_iteration := inner_cost
    vol_network := outer_cost.vol_network + inner_cost.vol_network * join_result_docs
    ram_volume := outer_cost.ram_volume_total + inner_cost.ram_volume_total * join_result_docs
    time_total := outer_cost.time_total + inner_cost.time_total * join_result_docs
    co2 := outer_cost.co2 + inner_cost.co2 * join_result_docs
    price := outer_cost.price + inner_cost.price * join_result_docs }

/-- Outer selectivity of `nested_loop_with_sharding` (lines 254-260):
the explicit override is honoured even at zero (`is not None` test),
else the shared first-filter-key policy. -/
def nl_outer_sel_override (outer_selectivity : Option ℚ)
    (outer_filter_keys : List String)
    (distinct_values : String → Option ℤ) : ℚ :=
  match outer_selectivity with
  | some s => s
  | none => nl_outer_sel outer_filter_keys distinct_values

/-- Inner selectivity of `nested_loop_with_sharding` (lines 262-263), on a
distinct count already defaulted to `1` when absent: `1.0 / ndist` when
nonzero, else `0.1`. -/
def nl_inner_sel_sharded (ndist : ℤ) : ℚ :=
  if ndist = 0 then 1 / 10 else 1 / (ndist : ℚ)

/-- `nested_loop_with_sharding` of `app/cost_model/operations.py`: outer
cost plus an inner per-lookup cost scaled by the OUTER result cardinality
(`iterations = outer_result_docs`); the join key's distinct count defaults
to `1` when absent (`distinct_values.get(join_key, 1)`). -/
def nested_loop_with_sharding (left right : Collection) (join_key : String)
    (distinct_values : String → Option ℤ) (servers : ℕ)
    (outer_filter_keys outer_select_fields inner_select_fields : List String)
    (outer_sharding_key inner_sharding_key : String)
    (outer_selectivity : Option ℚ) : Option JoinOutput := do
  let outer_sel := nl_outer_sel_override outer_selectivity outer_filter_keys
    distinct_values
  let ndist : ℤ := (distinct_values join_key).getD 1
  let inner_sel := nl_inner_sel_sharded ndist
  let outer_result_docs := (left.doc_count : ℚ) * outer_sel
  let join_result_docs := outer_result_docs * ((right.doc_count : ℚ) * inner_sel)
  let S_outer := if outer_sharding_key ≠ "" ∧ outer_filter_keys ≠ [] ∧
      outer_sharding_key ∈ outer_filter_keys then 1 else servers
  let S_inner := if inner_sharding_key ≠ "" ∧ inner_sharding_key = join_key
    then 1 else servers
  let outer_ft ← resolve_field_types left outer_filter_keys
  let outer_pt ← resolve_field_types left outer_select_fields
  let outer_cost ← operator_cost_excel S_outer outer_result_docs outer_ft outer_pt
    ((left.doc_count : ℚ) / (servers : ℚ)) outer_sel left.doc_size S_outer servers 1
  let avg_matches_per_lookup : ℚ :=
    if 0 < outer_result_docs then join_result_docs / outer_result_docs else 0
  let inner_ft ← resolve_field_types right [join_key]
  let inner_pt ← resolve_field_types right inner_select_fields
  let inner_cost ← operator_cost_excel S_inner avg_matches_per_lookup inner_ft inner_pt
    ((right.doc_count : ℚ) / (servers : ℚ)) inner_sel right.doc_size S_inner servers 1
  let iterations := outer_result_docs
  pure {
    result_docs := join_result_docs
    outer := outer_cost
    inner_per_iteration := inner_cost
    vol_network := outer_cost.vol_network + inner_cost.vol_network * iterations
    ram_volume := outer_cost.ram_volume_total + inner_cost.ram_volume_total * iterations
    time_total := outer_cost.time_total + inner_cost.time_total * iterations
    co2 := outer_cost.co2 + inner_cost.co2 * iterations
    price := outer_cost.price + inner_cost.price * iterations }

/-- Python truthiness of the optional `sharding_key` string parameter:
`None` and the empty string are falsy. -/
def optTruthy : Option String → Bool
  | none => false
  | some s => if s = "" then false else true

/-- `is_local_aggregation` of `aggregate_with_sharding` (line 382):
`sharding_key and group_by_key == sharding_key`. -/
def is_local_aggregation (sharding_key : Option String) (group_by_key : String) : Bool :=
  match sharding_key with
  | none => false
  | some sk => if sk = "" then false else if group_by_key = sk then true else false

/-- Per-record shuffle message size of `aggregate_with_sharding`
(lines 391-392).  The source line reads
`12 + sum(TYPE_SIZES.get(t, 80) for t in resolve_field_types(coll, shuffle_fields))`,
but `TYPE_SIZES` is bound nowhere in `app/cost_model/operations.py` (the
module never imports it).  Python evaluates the generator's outer iterable
first, so a failed field resolution still raises `ValueError` (`none`);
then the first generated element hits the unbound name and raises
`NameError`, embedded as `none`.  Only an empty resolved type list never
touches the name: the sum is empty and the result is the bare 12-byte key
overhead. -/
def shuffle_msg_size (coll : Collection) (project_fields : List String)
    (group_by_key : String) : Option ℚ := do
  let shuffle_fields := (project_fields ++ [group_by_key]).dedup
  let ts ← resolve_field_types coll shuffle_fields
  match ts with
  | [] => pure (12 : ℚ)
  | _ :: _ => none

/-- Network-side contribution of the SHUFFLE phase: volume, time, CO2 and
price. -/
structure ShuffleCost : Type where
  vol : ℚ
  time : ℚ
  co2 : ℚ
  price : ℚ
deriving Repr, DecidableEq

/-- SHUFFLE phase of `aggregate_with_sharding` (lines 382-406): all-zero
when grouping on the sharding key (co-located aggregation; the `else`
branch is skipped entirely).  Otherwise the branch attempts to charge
`docs_matched` messages of `shuffle_msg_size` bytes as ordinary network
traffic, but `shuffle_msg_size` raises (`none`) whenever a type resolves,
so the branch completes only for an empty resolved type list.  In the
co-located case the source never defines `price_shuffle` and adds a
literal `0` to the total price, embedded here as `price := 0`. -/
def shuffle_cost (coll : Collection) (project_fields : List String)
    (group_by_key : String) (sharding_key : Option String)
    (docs_matched : ℚ) : Option ShuffleCost :=
  if is_local_aggregation sharding_key group_by_key then
    some { vol := 0, time := 0, co2 := 0, price := 0 }
  else do
    let m ← shuffle_msg_size coll project_fields group_by_key
    let vol := docs_matched * m
    let gb := vol / 1000000000
    pure { vol := vol, time := vol / BANDWIDTH_Bps,
           co2 := gb * CO2_NETWORK_RATE, price := gb * PRICE_RATE }

/-- Result dictionary of `aggregate_with_sharding`. -/
structure AggOutput : Type where
  result_docs : ℚ
  vol_network : ℚ
  vol_shuffle : ℚ
  ram_volume : ℚ
  time_total : ℚ
  co2 : ℚ
  price : ℚ
deriving Repr, DecidableEq

/-- MATCH-phase selectivity of `aggregate_with_sharding` (lines 351-354):
`1.0` with no match filter, else the Python expression
`selectivity or default_selectivity(match_filter_keys[0], ...)`, whose
truthiness discards a zero override. -/
def agg_match_sel (match_filter_keys : List String) (selectivity : Option ℚ)
    (distinct_values : String → Option ℤ) : ℚ :=
  match match_filter_keys with
  | [] => 1
  | k :: _ =>
    match selectivity with
    | some s => if s = 0 then default_selectivity k distinct_values else s
    | none => default_selectivity k distinct_values

/-- `aggregate_with_sharding` of `app/cost_model/operations.py`:
MATCH (local filtered scan, collapsing to one shard when filtering on the
sharding key), SHUFFLE (see `shuffle_cost`), REDUCE (single coordinator
emitting `min(docs_matched, distinct_group)` documents, with a default
distinct-group estimate of 100). -/
def aggregate_with_sharding (coll : Collection)
    (match_filter_keys : List String) (group_by_key : String)
    (project_fields : List String)
    (distinct_values : String → Option ℤ) (servers : ℕ)
    (selectivity : Option ℚ) (sharding_key : Option String) :
    Option AggOutput := do
  let sel := agg_match_sel match_filter_keys selectivity distinct_values
  let docs_matched := (coll.doc_count : ℚ) * sel
  let S_match : ℕ :=
    match sharding_key with
    | none => servers
    | some sk =>
      if sk ≠ "" ∧ match_filter_keys ≠ [] ∧ sk ∈ match_filter_keys
      then 1 else servers
  let mft ← resolve_field_types coll match_filter_keys
  let cost_match ← operator_cost_excel S_match docs_matched mft []
    ((coll.doc_count : ℚ) / (servers : ℚ)) sel coll.doc_size S_match servers 1
  let sc ← shuffle_cost coll project_fields group_by_key sharding_key docs_matched
  let ndist_group : ℤ := (distinct_values group_by_key).getD 100
  let result_docs := min docs_matched (ndist_group : ℚ)
  let ppt ← resolve_field_types coll project_fields
  let cost_reduce ← operator_cost_excel 1 result_docs [] ppt 0 0 0 1 servers 1
  pure {
    result_docs := result_docs
    vol_network := cost_match.vol_network + sc.vol + cost_reduce.vol_network
    vol_shuffle := sc.vol
    ram_volume := cost_match.ram_volume_total
    time_total := cost_match.time_total + sc.time + cost_reduce.time_total
    co2 := cost_match.co2 + sc.co2 + cost_reduce.co2
    price := cost_match.price + sc.price + cost_reduce.price }

/-! ### Helper lemmas -/

theorem operator_cost_excel_fields {s : ℕ} {rd : ℚ} {ft pt : List String}
    {ld sel ds : ℚ} {sw st ips : ℕ} {out : CostOutput}
    (h : operator_cost_excel s rd ft pt ld sel ds sw st ips = some out) :
    out.result_docs = rd ∧
    out.ram_volume = ram_local_calc ld sel ds ips ∧
    out.ram_volume_total = (sw : ℚ) * ram_local_calc ld sel ds ips
      + inactive_ram_cost_calc s sw st ips := by
  unfold operator_cost_excel at h
  cases hq : compute_query_size ft pt with
  | none => rw [hq] at h; simp at h
  | some q =>
    cases hm : size_of_fields pt with
    | none => rw [hq, hm] at h; simp at h
    | some m =>
      rw [hq, hm] at h
      obtain rfl := Option.some.inj h
      exact ⟨rfl, rfl, rfl⟩

theorem filter_without_sharding_spec {coll : Collection} {fk sf : List String}
    {dv : String → Option ℤ} {servers : ℕ} {sel : Option ℚ}
    {pk : Option (List String)} {sw ips : ℕ} {out : CostOutput}
    (h : filter_without_sharding coll fk sf dv servers sel pk sw ips = some out) :
    ∃ rs : ℚ × ℚ, filter_cardinality coll.doc_count fk dv sel pk = some rs ∧
      out.result_docs = rs.1 := by
  simp only [filter_without_sharding] at h
  obtain ⟨rs, h1, h⟩ := Option.bind_eq_some.mp h
  obtain ⟨ft, h2, h⟩ := Option.bind_eq_some.mp h
  obtain ⟨pt, h3, h⟩ := Option.bind_eq_some.mp h
  exact ⟨rs, h1, (operator_cost_excel_fields h).1⟩

theorem filter_with_sharding_spec {coll : Collection} {fk sf : List String}
    {sk : String} {dv : String → Option ℤ} {servers : ℕ} {sel : Option ℚ}
    {pk : Option (List String)} {ips : ℕ} {out : CostOutput}
    (h : filter_with_sharding coll fk sf sk dv servers sel pk ips = some out) :
    ∃ rs : ℚ × ℚ, filter_cardinality coll.doc_count fk dv sel pk = some rs ∧
      out.result_docs = rs.1 := by
  simp only [filter_with_sharding] at h
  obtain ⟨rs, h1, h⟩ := Option.bind_eq_some.mp h
  obtain ⟨ft, h2, h⟩ := Option.bind_eq_some.mp h
  obtain ⟨pt, h3, h⟩ := Option.bind_eq_some.mp h
  exact ⟨rs, h1, (operator_cost_excel_fields h).1⟩

theorem size_of_fields_eq {ts : List String} {q : ℕ}
    (h : size_of_fields ts = some q) :
    q = ts.length * OVERHEAD + (ts.map (fun t => (TYPE_SIZES t).getD 80)).sum := by
  induction ts generalizing q with
  | nil =>
    obtain rfl := Option.some.inj h
    simp
  | cons t ts ih =>
    simp only [size_of_fields] at h
    obtain ⟨n, hn, h⟩ := Option.bind_eq_some.mp h
    obtain ⟨r, hr, h⟩ := Option.bind_eq_some.mp h
    obtain rfl := Option.some.inj h
    have := ih hr
    simp [hn, this, OVERHEAD]
    ring

theorem nested_loop_without_sharding_spec {left right : Collection}
    {join_key : String} {dv : String → Option ℤ}
    {ofk osf isf : List String} {servers : ℕ} {out : JoinOutput}
    (h : nested_loop_without_sharding left right join_key dv ofk osf isf servers
      = some out) :
    out.outer.result_docs = (left.doc_count : ℚ) * nl_outer_sel ofk dv ∧
    out.result_docs
      = nl_join_result_docs out.outer.result_docs right.doc_count (dv join_key) ∧
    out.vol_network = out.outer.vol_network
      + out.inner_per_iteration.vol_network * out.result_docs ∧
    out.ram_volume = out.outer.ram_volume_total
      + out.inner_per_iteration.ram_volume_total * out.result_docs ∧
    out.time_total = out.outer.time_total
      + out.inner_per_iteration.time_total * out.result_docs ∧
    out.co2 = out.outer.co2 + out.inner_per_iteration.co2 * out.result_docs ∧
    out.price = out.outer.price + out.inner_per_iteration.price * out.result_docs := by
  simp only [nested_loop_without_sharding] at h
  obtain ⟨oft, h1, h⟩ := Option.bind_eq_some.mp h
  obtain ⟨opt, h2, h⟩ := Option.bind_eq_some.mp h
  obtain ⟨oc, h3, h⟩ := Option.bind_eq_some.mp h
  obtain ⟨ift, h4, h⟩ := Option.bind_eq_some.mp h
  obtain ⟨ipt, h5, h⟩ := Option.bind_eq_some.mp h
  obtain ⟨ic, h6, h⟩ := Option.bind_eq_some.mp h
  obtain rfl := Option.some.inj h
  have hrd := (operator_cost_excel_fields h3).1
  exact ⟨hrd, by rw [hrd], rfl, rfl, rfl, rfl, rfl⟩

theorem nested_loop_with_sharding_spec {left right : Collection}
    {join_key : String} {dv : String → Option ℤ} {servers : ℕ}
    {ofk osf isf : List String} {osk isk : String} {osel : Option ℚ}
    {out : JoinOutput}
    (h : nested_loop_with_sharding left right join_key dv servers ofk osf isf
      osk isk osel = some out) :
    out.outer.result_docs = (left.doc_count : ℚ) * nl_outer_sel_override osel ofk dv ∧
    out.result_docs = out.outer.result_docs * ((right.doc_count : ℚ) *
      nl_inner_sel_sharded ((dv join_key).getD 1)) ∧
    out.vol_network = out.outer.vol_network
      + out.inner_per_iteration.vol_network * out.outer.result_docs ∧
    out.ram_volume = out.outer.ram_volume_total
      + out.inner_per_iteration.ram_volume_total * out.outer.result_docs ∧
    out.time_total = out.outer.time_total
      + out.inner_per_iteration.time_total * out.outer.result_docs ∧
    out.co2 = out.outer.co2 + out.inner_per_iteration.co2 * out.outer.result_docs ∧
    out.price = out.outer.price
      + out.inner_per_iteration.price * out.outer.result_docs := by
  simp only [nested_loop_with_sharding] at h
  obtain ⟨oft, h1, h⟩ := Option.bind_eq_some.mp h
  obtain ⟨opt, h2, h⟩ := Option.bind_eq_some.mp h
  obtain ⟨oc, h3, h⟩ := Option.bind_eq_some.mp h
  obtain ⟨ift, h4, h⟩ := Option.bind_eq_some.mp h
  obtain ⟨ipt, h5, h⟩ := Option.bind_eq_some.mp h
  obtain ⟨ic, h6, h⟩ := Option.bind_eq_some.mp h
  obtain rfl := Option.some.inj h
  have hrd := (operator_cost_excel_fields h3).1
  refine ⟨hrd, by rw [hrd], ?_, ?_, ?_, ?_, ?_⟩ <;> simp only [hrd]

theorem aggregate_with_sharding_spec {coll : Collection} {mfk : List String}
    {gk : String} {pf : List String} {dv : String → Option ℤ} {servers : ℕ}
    {sel : Option ℚ} {sk : Option String} {out : AggOutput}
    (h : aggregate_with_sharding coll mfk gk pf dv servers sel sk = some out) :
    ∃ (cm : CostOutput) (sc : ShuffleCost) (cr : CostOutput),
      shuffle_cost coll pf gk sk
        ((coll.doc_count : ℚ) * agg_match_sel mfk sel dv) = some sc ∧
      out.result_docs = min ((coll.doc_count : ℚ) * agg_match_sel mfk sel dv)
        ((((dv gk).getD 100) : ℤ) : ℚ) ∧
      out.vol_shuffle = sc.vol ∧
      out.vol_network = cm.vol_network + sc.vol + cr.vol_network ∧
      out.ram_volume = cm.ram_volume_total ∧
      out.time_total = cm.time_total + sc.time + cr.time_total ∧
      out.co2 = cm.co2 + sc.co2 + cr.co2 ∧
      out.price = cm.price + sc.price + cr.price := by
  simp only [aggregate_with_sharding] at h
  obtain ⟨mft, h1, h⟩ := Option.bind_eq_some.mp h
  obtain ⟨cm, h2, h⟩ := Option.bind_eq_some.mp h
  obtain ⟨sc, h3, h⟩ := Option.bind_eq_some.mp h
  obtain ⟨ppt, h4, h⟩ := Option.bind_eq_some.mp h
  obtain ⟨cr, h5, h⟩ := Option.bind_eq_some.mp h
  obtain rfl := Option.some.inj h
  exact ⟨cm, sc, cr, h3, rfl, rfl, rfl, rfl, rfl, rfl, rfl⟩

/-! ### Concrete fixtures for witnesses and counterexamples -/

/-- A one-integer-field collection with 10 documents of 20 bytes. -/
def collC : Collection := ⟨"C", [Field.mk "a" "integer" [] 1], 10, 20⟩

/-- A two-field collection (integer `a`, string `b`), 100 documents. -/
def collAB : Collection :=
  ⟨"A", [Field.mk "a" "integer" [] 1, Field.mk "b" "string" [] 1], 100, 204⟩

/-- The same schema over an empty collection. -/
def collAB0 : Collection :=
  ⟨"A", [Field.mk "a" "integer" [] 1, Field.mk "b" "string" [] 1], 0, 204⟩

/-- Statistics map: field `a` has 4 distinct values. -/
def dv4stats : String → Option ℤ := fun s => if s = "a" then some 4 else none

/-- Empty statistics map. -/
def dvEmpty : String → Option ℤ := fun _ => none

/-- Output of `nested_loop_without_sharding collC collC "a" dv4stats [] [] [] 1`. -/
def joinFixtureWithout : JoinOutput :=
  ⟨25,
   ⟨10, 0, 0, 0, 0, 1000200, 1000200, 0, 5001 / 125000000, 5001 / 125000000,
    35007 / 1250000000, 0⟩,
   ⟨1, 0, 20, 0, 20, 1000050, 1000050, 1 / 5000000, 20001 / 500000000,
    20101 / 500000000, 1400081 / 50000000000, 11 / 50000000000⟩,
   500, 26001450, 522529 / 500000000, 7280461 / 10000000000, 11 / 2000000000⟩

/-- Output of `nested_loop_with_sharding collC collC "a" dv4stats 1 [] [] [] "" "" none`. -/
def joinFixtureWith : JoinOutput :=
  ⟨25,
   ⟨10, 0, 0, 0, 0, 1000200, 1000200, 0, 5001 / 125000000, 5001 / 125000000,
    35007 / 1250000000, 0⟩,
   ⟨5 / 2, 0, 20, 0, 20, 1000050, 1000050, 1 / 5000000, 20001 / 500000000,
    20101 / 500000000, 1400081 / 50000000000, 11 / 50000000000⟩,
   200, 11000700, 110507 / 250000000, 1540109 / 5000000000, 11 / 5000000000⟩

/-- Output of
`aggregate_with_sharding collAB ["a"] "a" ["b"] dv4stats 2 none (some "a")`
(grouping on the sharding key: co-located aggregation, zero shuffle). -/
def aggFixtureLocal : AggOutput :=
  ⟨4, 480, 0, 1002550, 42451 / 500000000, 1401917 / 25000000000,
   33 / 6250000000⟩

/-! ### Claims -/

/-- C1: for every finite Field tree, `value_size` of a primitive is the
fixed table value (integer 8, number 8, string 80, longstring 200,
date 20), of an object the sum over its children, and of an array
`avg_items` times the `value_size` of its single item child (0 with no
item child); `key_count` of a primitive is 1, of an object 1 plus the sum
over its children, and of an array 1 plus the `key_count` of its item
child, never multiplied by `avg_items`; and `doc_size` of a collection is
the sum of `value_size` over root fields plus 12 times the sum of
`key_count` over root fields. -/
theorem C1_size_model :
    (∀ (nm : String) (subs : List Field) (avg : ℚ),
      value_size (Field.mk nm "integer" subs avg) = 8 ∧
      value_size (Field.mk nm "number" subs avg) = 8 ∧
      value_size (Field.mk nm "string" subs avg) = 80 ∧
      value_size (Field.mk nm "longstring" subs avg) = 200 ∧
      value_size (Field.mk nm "date" subs avg) = 20) ∧
    (∀ (nm : String) (subs : List Field) (avg : ℚ),
      value_size (Field.mk nm "object" subs avg) = (subs.map value_size).sum) ∧
    (∀ (nm : String) (avg : ℚ), value_size (Field.mk nm "array" [] avg) = 0) ∧
    (∀ (nm : String) (item : Field) (rest : List Field) (avg : ℚ),
      value_size (Field.mk nm "array" (item :: rest) avg) = avg * value_size item) ∧
    (∀ (nm : String) (subs : List Field) (avg : ℚ),
      key_count (Field.mk nm "integer" subs avg) = 1 ∧
      key_count (Field.mk nm "number" subs avg) = 1 ∧
      key_count (Field.mk nm "string" subs avg) = 1 ∧
      key_count (Field.mk nm "longstring" subs avg) = 1 ∧
      key_count (Field.mk nm "date" subs avg) = 1) ∧
    (∀ (nm : String) (subs : List Field) (avg : ℚ),
      key_count (Field.mk nm "object" subs avg) = 1 + (subs.map key_count).sum) ∧
    (∀ (nm : String) (item : Field) (rest : List Field) (avg : ℚ),
      key_count (Field.mk nm "array" (item :: rest) avg) = 1 + key_count item) ∧
    (∀ coll : Collection,
      doc_size coll = (coll.fields.map value_size).sum
        + 12 * (coll.fields.map key_count).sum) := by
  refine ⟨?_, ?_, ?_, ?_, ?_, ?_, ?_, ?_⟩
  · exact fun nm subs avg => ⟨rfl, rfl, rfl, rfl, rfl⟩
  · intro nm subs avg
    have h1 : value_size (Field.mk nm "object" subs avg) = value_size_list subs := by
      cases subs <;> simp [value_size, TYPE_SIZES_object, value_size_list]
    rw [h1, value_size_list_eq_sum]
  · exact fun nm avg => rfl
  · exact fun nm item rest avg => rfl
  · exact fun nm subs avg => ⟨rfl, rfl, rfl, rfl, rfl⟩
  · intro nm subs avg
    have h1 : key_count (Field.mk nm "object" subs avg) = 1 + key_count_list subs := by
      cases subs <;> simp [key_count, TYPE_SIZES_object, key_count_list]
    rw [h1, key_count_list_eq_sum]
  · exact fun nm item rest avg => rfl
  · intro coll
    rw [doc_size, value_size_list_eq_sum, key_count_list_eq_sum]
    norm_num [OVERHEAD]
    ring

/-- C2: in the cost formula, whenever `s = 1` and `servers_total > 1` the
inactive-shard RAM cost is exactly 0; otherwise it is
`(servers_total - servers_working) * indexes_per_shard * INDEX_SIZE` (the
count subtraction is the natural/truncated one, matching the source's
`max(..., 0)` clamp); and the output's total RAM volume is
`servers_working * ram_local + inactive_ram_cost`. -/
theorem C2_smart_routing_ram (s sw st ips : ℕ) (rd ld sel ds : ℚ)
    (ft pt : List String) (out : CostOutput)
    (h : operator_cost_excel s rd ft pt ld sel ds sw st ips = some out) :
    (s = 1 ∧ 1 < st → inactive_ram_cost_calc s sw st ips = 0) ∧
    (¬(s = 1 ∧ 1 < st) →
      inactive_ram_cost_calc s sw st ips
        = ((st - sw : ℕ) : ℚ) * (ips : ℚ) * INDEX_SIZE) ∧
    out.ram_volume_total
      = (sw : ℚ) * ram_local_calc ld sel ds ips
        + inactive_ram_cost_calc s sw st ips := by
  refine ⟨?_, ?_, (operator_cost_excel_fields h).2.2⟩
  · intro hc
    unfold inactive_ram_cost_calc
    rw [if_pos hc]
  · intro hc
    unfold inactive_ram_cost_calc
    rw [if_neg hc]
    ring

/-- Witness for C2 at `s = 2`, `servers_working = 2`, `servers_total = 3`. -/
theorem C2_smart_routing_ram_witness :
    ((2 : ℕ) = 1 ∧ 1 < 3 → inactive_ram_cost_calc 2 2 3 1 = 0) ∧
    (¬((2 : ℕ) = 1 ∧ 1 < 3) →
      inactive_ram_cost_calc 2 2 3 1
        = (((3 : ℕ) - 2 : ℕ) : ℚ) * ((1 : ℕ) : ℚ) * INDEX_SIZE) ∧
    (CostOutput.mk 1 92 112 92 316 1000500 3001000 (79 / 25000000)
        (2001 / 50000000) (2159 / 50000000) (21007869 / 250000000000)
        (869 / 250000000000)).ram_volume_total
      = ((2 : ℕ) : ℚ) * ram_local_calc 10 (1 / 2) 100 1
        + inactive_ram_cost_calc 2 2 3 1 :=
  C2_smart_routing_ram 2 2 3 1 1 10 (1 / 2) 100 ["integer"] ["string"] _
    (by norm_num [operator_cost_excel, compute_query_size, sum_type_sizes,
      size_of_fields, ram_local_calc, inactive_ram_cost_calc, bytes_to_gb,
      OVERHEAD, TYPE_SIZES_integer, TYPE_SIZES_string, BANDWIDTH_Bps, RAM_Bps,
      CO2_NETWORK_RATE, CO2_RAM_RATE, PRICE_RATE, INDEX_SIZE])

/-- C10: the size-model functions are total over arbitrary kind strings —
for a field whose kind is neither a recognized primitive nor `object` nor
`array`, `value_size` silently returns the string size (80 bytes) and
`key_count` returns 1, whereas the type resolver signals the error
(`collect_primitive_types` returns `none`, the embedded `ValueError`). -/
theorem C10_unknown_kind_total (nm t : String) (subs : List Field) (avg : ℚ)
    (hp : TYPE_SIZES t = none) (ho : t ≠ "object") (ha : t ≠ "array") :
    value_size (Field.mk nm t subs avg) = 80 ∧
    key_count (Field.mk nm t subs avg) = 1 ∧
    collect_primitive_types (Field.mk nm t subs avg) = none := by
  refine ⟨?_, ?_, ?_⟩
  · cases subs <;> simp [value_size, hp, ho, ha]
  · cases subs <;> simp [key_count, hp, ho, ha]
  · cases subs <;> simp [collect_primitive_types, hp, ho, ha]

/-- Witness for C10 at the unrecognized kind string `"ref"`. -/
theorem C10_unknown_kind_total_witness :
    value_size (Field.mk "x" "ref" [] 1) = 80 ∧
    key_count (Field.mk "x" "ref" [] 1) = 1 ∧
    collect_primitive_types (Field.mk "x" "ref" [] 1) = none :=
  C10_unknown_kind_total "x" "ref" [] 1 rfl (by simp) (by simp)

/-- C8: a zero distinct-value count is indeed guarded (the fallback
selectivity `0.1` is used), but a zero `doc_count` is not: when the filter
keys cover the primary key the source computes `1.0 / coll.doc_count`,
a `ZeroDivisionError` on an empty collection (embedded as `none`), both in
the shared cardinality block and through `filter_without_sharding`. -/
theorem C8_zero_stats_guard :
    default_selectivity "id" (fun _ => some 0) = 1 / 10 ∧
    filter_cardinality 0 ["id"] (fun _ => none) none (some ["id"]) = none ∧
    filter_without_sharding ⟨"C", [Field.mk "id" "integer" [] 1], 0, 20⟩
      ["id"] [] (fun _ => none) 2 none (some ["id"]) 1 1 = none := by
  refine ⟨?_, ?_, ?_⟩
  · norm_num [default_selectivity]
  · norm_num [filter_cardinality, detect_primary_key_result]
  · norm_num [filter_without_sharding, filter_cardinality,
      detect_primary_key_result]

/-- C3 counterexample: the claim states `detect_primary_key_result` is true
iff `pk_fields ⊆ filter_keys`; at the explicit input
`filter_keys = ["a"]`, `pk_fields = []` the subset relation holds (the
empty set is a subset of anything) yet the function returns `False`, by
its `if not pk_fields` guard. -/
theorem C3_pk_empty_counterexample :
    detect_primary_key_result ["a"] (some ([] : List String)) = false ∧
    ∀ k ∈ ([] : List String), k ∈ ["a"] := by
  exact ⟨rfl, by simp⟩

/-- C3 (amended): `detect_primary_key_result(filterKeys, pkFields)` is true
iff `pkFields` is NONEMPTY and a subset of `filterKeys`; whenever it is
true and `doc_count` is positive, the shared cardinality block yields
`result_docs = 1` and `selectivity = 1/doc_count` exactly, and both filter
operators report `result_docs = 1` on success. -/
theorem C3_primary_key_amended (fk pk : List String) (dc : ℕ)
    (dv : String → Option ℤ) (sel : Option ℚ) :
    (detect_primary_key_result fk (some pk) = true ↔
      pk ≠ [] ∧ ∀ k ∈ pk, k ∈ fk) ∧
    (detect_primary_key_result fk (some pk) = true → 0 < dc →
      filter_cardinality dc fk dv sel (some pk) = some (1, 1 / (dc : ℚ))) ∧
    (∀ (coll : Collection) (sf : List String) (servers sw ips : ℕ)
       (out : CostOutput),
      detect_primary_key_result fk (some pk) = true →
      filter_without_sharding coll fk sf dv servers sel (some pk) sw ips
        = some out →
      out.result_docs = 1) ∧
    (∀ (coll : Collection) (sf : List String) (sk : String) (servers ips : ℕ)
       (out : CostOutput),
      detect_primary_key_result fk (some pk) = true →
      filter_with_sharding coll fk sf sk dv servers sel (some pk) ips
        = some out →
      out.result_docs = 1) := by
  have hcard : ∀ n : ℕ, detect_primary_key_result fk (some pk) = true → n ≠ 0 →
      filter_cardinality n fk dv sel (some pk) = some (1, 1 / (n : ℚ)) := by
    intro n hdet hn
    simp [filter_cardinality, hdet, hn]
  refine ⟨?_, ?_, ?_, ?_⟩
  · cases pk with
    | nil => simp [detect_primary_key_result]
    | cons a l => simp [detect_primary_key_result, List.all_eq_true]
  · intro hdet hdc
    exact hcard dc hdet (Nat.pos_iff_ne_zero.mp hdc)
  · intro coll sf servers sw ips out hdet h
    obtain ⟨rs, hrs, hout⟩ := filter_without_sharding_spec h
    by_cases hdc : coll.doc_count = 0
    · simp [filter_cardinality, hdet, hdc] at hrs
    · rw [hcard _ hdet hdc] at hrs
      obtain rfl := Option.some.inj hrs
      exact hout
  · intro coll sf sk servers ips out hdet h
    obtain ⟨rs, hrs, hout⟩ := filter_with_sharding_spec h
    by_cases hdc : coll.doc_count = 0
    · simp [filter_cardinality, hdet, hdc] at hrs
    · rw [hcard _ hdet hdc] at hrs
      obtain rfl := Option.some.inj hrs
      exact hout

/-- Witness for C3 at `filter_keys = ["a","b"]`, `pk_fields = ["a"]`,
`doc_count = 10`, on a two-field collection. -/
theorem C3_primary_key_amended_witness :
    filter_cardinality 10 ["a", "b"] (fun _ => none) none (some ["a"])
      = some (1, 1 / ((10 : ℕ) : ℚ)) ∧
    (CostOutput.mk 1 0 112 0 224 1000102 2000102 (7 / 3125000)
        (500051 / 12500000000) (528051 / 12500000000) (1400133 / 25000000000)
        (77 / 31250000000)).result_docs = 1 ∧
    (CostOutput.mk 1 0 112 0 112 1000102 1000102 (7 / 6250000)
        (500051 / 12500000000) (514051 / 12500000000) (3500511 / 125000000000)
        (77 / 62500000000)).result_docs = 1 := by
  have hdet : detect_primary_key_result ["a", "b"] (some ["a"]) = true := by
    norm_num [detect_primary_key_result]
  refine ⟨(C3_primary_key_amended ["a", "b"] ["a"] 10 (fun _ => none) none).2.1
    hdet (by norm_num), ?_, ?_⟩
  · refine (C3_primary_key_amended ["a", "b"] ["a"] 10 (fun _ => none) none).2.2.1
      ⟨"A", [Field.mk "a" "integer" [] 1, Field.mk "b" "string" [] 1], 10, 204⟩
      [] 2 1 1 _ hdet ?_
    simp [filter_without_sharding, filter_cardinality, hdet,
      resolve_field_types, find_field, find_in_field, collect_primitive_types,
      operator_cost_excel, compute_query_size, sum_type_sizes, size_of_fields,
      ram_local_calc, inactive_ram_cost_calc, bytes_to_gb, OVERHEAD,
      TYPE_SIZES_integer, TYPE_SIZES_string, BANDWIDTH_Bps, RAM_Bps,
      CO2_NETWORK_RATE, CO2_RAM_RATE, PRICE_RATE, INDEX_SIZE]
    all_goals norm_num
  · refine (C3_primary_key_amended ["a", "b"] ["a"] 10 (fun _ => none) none).2.2.2
      ⟨"A", [Field.mk "a" "integer" [] 1, Field.mk "b" "string" [] 1], 10, 204⟩
      [] "a" 2 1 _ hdet ?_
    simp [filter_with_sharding, filter_cardinality, hdet,
      resolve_field_types, find_field, find_in_field, collect_primitive_types,
      operator_cost_excel, compute_query_size, sum_type_sizes, size_of_fields,
      ram_local_calc, inactive_ram_cost_calc, bytes_to_gb, OVERHEAD,
      TYPE_SIZES_integer, TYPE_SIZES_string, BANDWIDTH_Bps, RAM_Bps,
      CO2_NETWORK_RATE, CO2_RAM_RATE, PRICE_RATE, INDEX_SIZE]
    all_goals norm_num

/-- C7 counterexample: the claim says a supplied explicit selectivity
override always takes precedence; at the explicit input
`doc_count = 100`, `filter_keys = ["a"]`, `distinct_values["a"] = 4`,
override `0.0` supplied, the source's truthiness test
`selectivity or default_selectivity(...)` discards the override and uses
`1/4`, so the selectivity used is `1/4 ≠ 0`. -/
theorem C7_zero_override_counterexample :
    filter_cardinality 100 ["a"] (fun s => if s = "a" then some 4 else none)
      (some 0) none = some (25, 1 / 4) ∧ (1 / 4 : ℚ) ≠ 0 := by
  constructor
  · simp [filter_cardinality, detect_primary_key_result, default_selectivity]
    all_goals norm_num
  · norm_num

/-- C7 (amended): on the non-primary-key path, a supplied NONZERO explicit
override takes precedence (`result_docs = doc_count * override`); a zero
override is discarded by the source's truthiness test and falls through,
like a missing one, to `default_selectivity`, which is
`1 / distinct_values[firstFilterKey]` when that statistic is present and
POSITIVE and the fallback constant `0.1` otherwise; in all fallback cases
`result_docs = doc_count * selectivity`. -/
theorem C7_selectivity_policy_amended (dc : ℕ) (k : String)
    (rest : List String) (dv : String → Option ℤ) (pk : Option (List String))
    (hdet : detect_primary_key_result (k :: rest) pk = false) :
    (∀ s : ℚ, s ≠ 0 →
      filter_cardinality dc (k :: rest) dv (some s) pk
        = some ((dc : ℚ) * s, s)) ∧
    (∀ so : Option ℚ, so = none ∨ so = some 0 →
      filter_cardinality dc (k :: rest) dv so pk
        = some ((dc : ℚ) * default_selectivity k dv,
            default_selectivity k dv)) ∧
    (∀ n : ℤ, dv k = some n → 0 < n →
      default_selectivity k dv = 1 / (n : ℚ)) ∧
    (dv k = none → default_selectivity k dv = 1 / 10) ∧
    (∀ n : ℤ, dv k = some n → n ≤ 0 →
      default_selectivity k dv = 1 / 10) := by
  refine ⟨?_, ?_, ?_, ?_, ?_⟩
  · intro s hs
    simp [filter_cardinality, hdet, hs]
  · intro so hso
    rcases hso with rfl | rfl <;> simp [filter_cardinality, hdet]
  · intro n hn hpos
    simp [default_selectivity, hn, hpos]
  · intro hn
    simp [default_selectivity, hn]
  · intro n hn hle
    simp [default_selectivity, hn, not_lt.mpr hle]

/-- Witness for C7 at `doc_count = 100`, first filter key `"a"` with
distinct count 4. -/
theorem C7_selectivity_policy_amended_witness :
    filter_cardinality 100 ["a"] (fun s => if s = "a" then some 4 else none)
      (some (1 / 2)) none = some (((100 : ℕ) : ℚ) * (1 / 2), 1 / 2) ∧
    filter_cardinality 100 ["a"] (fun s => if s = "a" then some 4 else none)
      (some 0) none
      = some (((100 : ℕ) : ℚ)
          * default_selectivity "a" (fun s => if s = "a" then some 4 else none),
          default_selectivity "a" (fun s => if s = "a" then some 4 else none)) ∧
    default_selectivity "a" (fun s => if s = "a" then some 4 else none)
      = 1 / (((4 : ℤ)) : ℚ) := by
  have h := C7_selectivity_policy_amended 100 "a" []
    (fun s => if s = "a" then some 4 else none) none
    (by simp [detect_primary_key_result])
  exact ⟨h.1 (1 / 2) (by norm_num), h.2.1 (some 0) (Or.inr rfl),
    h.2.2.1 4 (by simp) (by norm_num)⟩

/-- C4: both nested-loop join variants aggregate every total (network
volume, RAM volume, time, CO2, price) as
`outerCost + innerCostPerProbe * iterations`, where `iterations` is the
JOIN OUTPUT cardinality (`result_docs`) for the unsharded variant and the
OUTER result cardinality (`outer.result_docs`) for the sharded variant. -/
theorem C4_nested_loop_totals (left right : Collection) (join_key : String)
    (dv : String → Option ℤ) (ofk osf isf : List String) (servers : ℕ)
    (osk isk : String) (osel : Option ℚ) (out1 out2 : JoinOutput)
    (h1 : nested_loop_without_sharding left right join_key dv ofk osf isf
      servers = some out1)
    (h2 : nested_loop_with_sharding left right join_key dv servers ofk osf isf
      osk isk osel = some out2) :
    (out1.vol_network = out1.outer.vol_network
        + out1.inner_per_iteration.vol_network * out1.result_docs ∧
     out1.ram_volume = out1.outer.ram_volume_total
        + out1.inner_per_iteration.ram_volume_total * out1.result_docs ∧
     out1.time_total = out1.outer.time_total
        + out1.inner_per_iteration.time_total * out1.result_docs ∧
     out1.co2 = out1.outer.co2
        + out1.inner_per_iteration.co2 * out1.result_docs ∧
     out1.price = out1.outer.price
        + out1.inner_per_iteration.price * out1.result_docs) ∧
    (out2.vol_network = out2.outer.vol_network
        + out2.inner_per_iteration.vol_network * out2.outer.result_docs ∧
     out2.ram_volume = out2.outer.ram_volume_total
        + out2.inner_per_iteration.ram_volume_total * out2.outer.result_docs ∧
     out2.time_total = out2.outer.time_total
        + out2.inner_per_iteration.time_total * out2.outer.result_docs ∧
     out2.co2 = out2.outer.co2
        + out2.inner_per_iteration.co2 * out2.outer.result_docs ∧
     out2.price = out2.outer.price
        + out2.inner_per_iteration.price * out2.outer.result_docs) := by
  obtain ⟨-, -, e1, e2, e3, e4, e5⟩ := nested_loop_without_sharding_spec h1
  obtain ⟨-, -, f1, f2, f3, f4, f5⟩ := nested_loop_with_sharding_spec h2
  exact ⟨⟨e1, e2, e3, e4, e5⟩, ⟨f1, f2, f3, f4, f5⟩⟩

/-- Witness for C4 on concrete single-server joins over `collC`. -/
theorem C4_nested_loop_totals_witness :
    (joinFixtureWithout.vol_network = joinFixtureWithout.outer.vol_network
        + joinFixtureWithout.inner_per_iteration.vol_network
          * joinFixtureWithout.result_docs ∧
     joinFixtureWithout.ram_volume = joinFixtureWithout.outer.ram_volume_total
        + joinFixtureWithout.inner_per_iteration.ram_volume_total
          * joinFixtureWithout.result_docs ∧
     joinFixtureWithout.time_total = joinFixtureWithout.outer.time_total
        + joinFixtureWithout.inner_per_iteration.time_total
          * joinFixtureWithout.result_docs ∧
     joinFixtureWithout.co2 = joinFixtureWithout.outer.co2
        + joinFixtureWithout.inner_per_iteration.co2
          * joinFixtureWithout.result_docs ∧
     joinFixtureWithout.price = joinFixtureWithout.outer.price
        + joinFixtureWithout.inner_per_iteration.price
          * joinFixtureWithout.result_docs) ∧
    (joinFixtureWith.vol_network = joinFixtureWith.outer.vol_network
        + joinFixtureWith.inner_per_iteration.vol_network
          * joinFixtureWith.outer.result_docs ∧
     joinFixtureWith.ram_volume = joinFixtureWith.outer.ram_volume_total
        + joinFixtureWith.inner_per_iteration.ram_volume_total
          * joinFixtureWith.outer.result_docs ∧
     joinFixtureWith.time_total = joinFixtureWith.outer.time_total
        + joinFixtureWith.inner_per_iteration.time_total
          * joinFixtureWith.outer.result_docs ∧
     joinFixtureWith.co2 = joinFixtureWith.outer.co2
        + joinFixtureWith.inner_per_iteration.co2
          * joinFixtureWith.outer.result_docs ∧
     joinFixtureWith.price = joinFixtureWith.outer.price
        + joinFixtureWith.inner_per_iteration.price
          * joinFixtureWith.outer.result_docs) :=
  C4_nested_loop_totals collC collC "a" dv4stats [] [] [] 1 "" "" none
    joinFixtureWithout joinFixtureWith
    (by simp [nested_loop_without_sharding, nl_outer_sel, nl_inner_sel,
      nl_join_result_docs, default_selectivity, dv4stats, collC,
      joinFixtureWithout, resolve_field_types, find_field, find_in_field,
      collect_primitive_types, operator_cost_excel, compute_query_size,
      sum_type_sizes, size_of_fields, ram_local_calc, inactive_ram_cost_calc,
      bytes_to_gb, OVERHEAD, TYPE_SIZES_integer, BANDWIDTH_Bps, RAM_Bps,
      CO2_NETWORK_RATE, CO2_RAM_RATE, PRICE_RATE, INDEX_SIZE]
      <;> norm_num)
    (by simp [nested_loop_with_sharding, nl_outer_sel_override, nl_outer_sel,
      nl_inner_sel_sharded, default_selectivity, dv4stats, collC,
      joinFixtureWith, resolve_field_types, find_field, find_in_field,
      collect_primitive_types, operator_cost_excel, compute_query_size,
      sum_type_sizes, size_of_fields, ram_local_calc, inactive_ram_cost_calc,
      bytes_to_gb, OVERHEAD, TYPE_SIZES_integer, BANDWIDTH_Bps, RAM_Bps,
      CO2_NETWORK_RATE, CO2_RAM_RATE, PRICE_RATE, INDEX_SIZE]
      <;> norm_num)

/-- C5 counterexample: the claim says BOTH join variants fall back to
`0.1 * outerResultDocs * rightDocCount` when the join key's distinct count
is unknown.  At the explicit input below (empty statistics, outer result
docs `100 * 0.1 = 10`, `rightDocCount = 100`) the sharded variant reports
`1000 = outer * right` (its `.get(join_key, 1)` default), not the claimed
`0.1 * 10 * 100 = 100`. -/
theorem C5_join_cardinality_counterexample :
    (nested_loop_with_sharding collAB collAB "a" dvEmpty 2 ["a"] ["b"] ["b"]
        "a" "a" none).map JoinOutput.result_docs = some 1000 ∧
    (1000 : ℚ) ≠ 1 / 10 * 10 * 100 := by
  constructor
  · simp [nested_loop_with_sharding, nl_outer_sel_override, nl_outer_sel,
      nl_inner_sel_sharded, default_selectivity, dvEmpty, collAB,
      resolve_field_types, find_field, find_in_field, collect_primitive_types,
      operator_cost_excel, compute_query_size, sum_type_sizes, size_of_fields,
      ram_local_calc, inactive_ram_cost_calc, bytes_to_gb, OVERHEAD,
      TYPE_SIZES_integer, TYPE_SIZES_string, BANDWIDTH_Bps, RAM_Bps,
      CO2_NETWORK_RATE, CO2_RAM_RATE, PRICE_RATE, INDEX_SIZE]
    all_goals norm_num
  · norm_num

/-- C5 (amended): with a known NONZERO distinct count `n` for the join key,
both variants report `outer * (right / n)`; when the statistic is missing
or zero the unsharded variant reports `0.1 * outer * right`; the sharded
variant reports `0.1`-fallback only for a PRESENT-BUT-ZERO statistic and
`outer * right` (distinct count defaulted to 1) when the key is missing. -/
theorem C5_join_cardinality_amended (left right : Collection)
    (join_key : String) (dv : String → Option ℤ) (ofk osf isf : List String)
    (servers : ℕ) (osk isk : String) (osel : Option ℚ) (out1 out2 : JoinOutput)
    (h1 : nested_loop_without_sharding left right join_key dv ofk osf isf
      servers = some out1)
    (h2 : nested_loop_with_sharding left right join_key dv servers ofk osf isf
      osk isk osel = some out2) :
    (∀ n : ℤ, dv join_key = some n → n ≠ 0 →
      out1.result_docs
        = out1.outer.result_docs * ((right.doc_count : ℚ) / (n : ℚ))) ∧
    (dv join_key = none ∨ dv join_key = some 0 →
      out1.result_docs
        = 1 / 10 * out1.outer.result_docs * (right.doc_count : ℚ)) ∧
    (∀ n : ℤ, dv join_key = some n → n ≠ 0 →
      out2.result_docs
        = out2.outer.result_docs * ((right.doc_count : ℚ) * (1 / (n : ℚ)))) ∧
    (dv join_key = some 0 →
      out2.result_docs
        = out2.outer.result_docs * ((right.doc_count : ℚ) * (1 / 10))) ∧
    (dv join_key = none →
      out2.result_docs = out2.outer.result_docs * (right.doc_count : ℚ)) := by
  obtain ⟨-, hc1, -, -, -, -, -⟩ := nested_loop_without_sharding_spec h1
  obtain ⟨-, hc2, -, -, -, -, -⟩ := nested_loop_with_sharding_spec h2
  refine ⟨?_, ?_, ?_, ?_, ?_⟩
  · intro n hn hnz
    rw [hc1, hn]
    simp [nl_join_result_docs, hnz]
  · intro hor
    rcases hor with hn | hn <;> rw [hc1, hn] <;> simp [nl_join_result_docs]
  · intro n hn hnz
    rw [hc2, hn]
    simp [nl_inner_sel_sharded, hnz]
  · intro hn
    rw [hc2, hn]
    simp [nl_inner_sel_sharded]
  · intro hn
    rw [hc2, hn]
    simp [nl_inner_sel_sharded]

/-- Witness for C5 on the concrete single-server joins over `collC`, whose
join key `"a"` has a known distinct count of 4. -/
theorem C5_join_cardinality_amended_witness :
    joinFixtureWithout.result_docs
      = joinFixtureWithout.outer.result_docs
        * (((10 : ℕ) : ℚ) / ((4 : ℤ) : ℚ)) ∧
    joinFixtureWith.result_docs
      = joinFixtureWith.outer.result_docs
        * (((10 : ℕ) : ℚ) * (1 / ((4 : ℤ) : ℚ))) := by
  have h := C5_join_cardinality_amended collC collC "a" dv4stats [] [] [] 1
    "" "" none joinFixtureWithout joinFixtureWith
    (by simp [nested_loop_without_sharding, nl_outer_sel, nl_inner_sel,
      nl_join_result_docs, default_selectivity, dv4stats, collC,
      joinFixtureWithout, resolve_field_types, find_field, find_in_field,
      collect_primitive_types, operator_cost_excel, compute_query_size,
      sum_type_sizes, size_of_fields, ram_local_calc, inactive_ram_cost_calc,
      bytes_to_gb, OVERHEAD, TYPE_SIZES_integer, BANDWIDTH_Bps, RAM_Bps,
      CO2_NETWORK_RATE, CO2_RAM_RATE, PRICE_RATE, INDEX_SIZE]
      <;> norm_num)
    (by simp [nested_loop_with_sharding, nl_outer_sel_override, nl_outer_sel,
      nl_inner_sel_sharded, default_selectivity, dv4stats, collC,
      joinFixtureWith, resolve_field_types, find_field, find_in_field,
      collect_primitive_types, operator_cost_excel, compute_query_size,
      sum_type_sizes, size_of_fields, ram_local_calc, inactive_ram_cost_calc,
      bytes_to_gb, OVERHEAD, TYPE_SIZES_integer, BANDWIDTH_Bps, RAM_Bps,
      CO2_NETWORK_RATE, CO2_RAM_RATE, PRICE_RATE, INDEX_SIZE]
      <;> norm_num)
  exact ⟨h.1 4 (by simp [dv4stats]) (by norm_num),
    h.2.2.1 4 (by simp [dv4stats]) (by norm_num)⟩

/-- The `g` field is an empty object (no properties): its type resolution
yields the empty list, the one case in which the shuffle branch of
`aggregate_with_sharding` evades the unbound `TYPE_SIZES` name. -/
def collObjG : Collection :=
  ⟨"G", [Field.mk "a" "integer" [] 1, Field.mk "g" "object" [] 1], 0, 20⟩

/-- C6: the IF direction of the claim is real: grouping on the (truthy)
sharding key skips the shuffle branch entirely — zero shuffle volume,
time, CO2 and price — and the REDUCE cardinality is
`min(matchedDocs, distinctGroupValues)` with 100 as the default estimate,
as the co-located run below shows.  The OTHERWISE direction is not: the
shuffle branch reads `TYPE_SIZES` (operations.py line 392), a name the
module never imports, and raises `NameError` as soon as one type
resolves, so the program never charges `matchedDocs * perRecordMessageSize`
there; at the failing input below (group key `"b"` ≠ sharding key `"a"`,
resolved types `["string"]`) the whole aggregation errors (`none`). -/
theorem C6_aggregate_shuffle_name_error :
    aggregate_with_sharding collAB ["a"] "b" ["b"] dv4stats 2 none (some "a")
      = none ∧
    is_local_aggregation (some "a") "b" = false ∧
    (∀ dm : ℚ, shuffle_cost collAB ["b"] "a" (some "a") dm
      = some ⟨0, 0, 0, 0⟩) ∧
    aggregate_with_sharding collAB ["a"] "a" ["b"] dv4stats 2 none (some "a")
      = some aggFixtureLocal ∧
    aggFixtureLocal.vol_shuffle = 0 ∧
    aggFixtureLocal.result_docs
      = min ((collAB.doc_count : ℚ) * agg_match_sel ["a"] none dv4stats)
          ((((dv4stats "a").getD 100) : ℤ) : ℚ) := by
  refine ⟨?_, by simp [is_local_aggregation], ?_, ?_, by simp [aggFixtureLocal], ?_⟩
  · simp [aggregate_with_sharding, agg_match_sel, default_selectivity,
      dv4stats, collAB, shuffle_cost, is_local_aggregation, shuffle_msg_size,
      resolve_field_types, find_field, find_in_field, collect_primitive_types,
      operator_cost_excel, compute_query_size, sum_type_sizes, size_of_fields,
      ram_local_calc, inactive_ram_cost_calc, bytes_to_gb, OVERHEAD,
      TYPE_SIZES_integer, TYPE_SIZES_string, BANDWIDTH_Bps, RAM_Bps,
      CO2_NETWORK_RATE, CO2_RAM_RATE, PRICE_RATE, INDEX_SIZE, List.dedup]
    all_goals norm_num
  · intro dm
    simp [shuffle_cost, is_local_aggregation]
  · simp [aggregate_with_sharding, agg_match_sel, default_selectivity,
      dv4stats, collAB, aggFixtureLocal, shuffle_cost, is_local_aggregation,
      shuffle_msg_size, resolve_field_types, find_field, find_in_field,
      collect_primitive_types, operator_cost_excel, compute_query_size,
      sum_type_sizes, size_of_fields, ram_local_calc, inactive_ram_cost_calc,
      bytes_to_gb, OVERHEAD, TYPE_SIZES_integer, TYPE_SIZES_string,
      BANDWIDTH_Bps, RAM_Bps, CO2_NETWORK_RATE, CO2_RAM_RATE, PRICE_RATE,
      INDEX_SIZE, List.dedup]
    all_goals norm_num
  · simp [aggFixtureLocal, agg_match_sel, default_selectivity, dv4stats,
      collAB]
    all_goals norm_num

/-- C9: the claim reads the per-record shuffle message size off lines
391-392 of `app/cost_model/operations.py`, but that expression references
`TYPE_SIZES`, a name the module never imports: whenever at least one
primitive type resolves (always in practice, since the group-by key is
among the shuffle fields) the program raises `NameError` instead of
computing `12 + Σ typeSize`.  At the failing input below the shuffle
fields resolve to `["string", "integer"]` and the size computation errors
(`none`), taking the whole non-co-located aggregation down with it.  The
only completing case is an empty resolved type list (an empty-object
group key), whose message is the bare per-message 12-byte overhead. -/
theorem C9_shuffle_message_name_error :
    resolve_field_types collAB ((["b"] ++ ["a"]).dedup)
      = some ["string", "integer"] ∧
    shuffle_msg_size collAB ["b"] "a" = none ∧
    aggregate_with_sharding collAB ["a"] "b" ["b"] dv4stats 2 none (some "a")
      = none ∧
    shuffle_msg_size collObjG [] "g" = some 12 := by
  refine ⟨?_, ?_, ?_, ?_⟩
  · simp [collAB, resolve_field_types, find_field, find_in_field,
      collect_primitive_types, TYPE_SIZES_string, TYPE_SIZES_integer,
      List.dedup]
  · simp [shuffle_msg_size, collAB, resolve_field_types, find_field,
      find_in_field, collect_primitive_types, TYPE_SIZES_string,
      TYPE_SIZES_integer, List.dedup]
  · simp [aggregate_with_sharding, agg_match_sel, default_selectivity,
      dv4stats, collAB, shuffle_cost, is_local_aggregation, shuffle_msg_size,
      resolve_field_types, find_field, find_in_field, collect_primitive_types,
      operator_cost_excel, compute_query_size, sum_type_sizes, size_of_fields,
      ram_local_calc, inactive_ram_cost_calc, bytes_to_gb, OVERHEAD,
      TYPE_SIZES_integer, TYPE_SIZES_string, BANDWIDTH_Bps, RAM_Bps,
      CO2_NETWORK_RATE, CO2_RAM_RATE, PRICE_RATE, INDEX_SIZE, List.dedup]
    all_goals norm_num
  · simp [shuffle_msg_size, collObjG, resolve_field_types, find_field,
      find_in_field, collect_primitive_types, collect_primitive_types_list,
      TYPE_SIZES_object, List.dedup]

end BigData
